import Mathlib

/-!
Verification of the KyberBusiness billing backend (`backend/server.py` and the
near-identical `docker-deploy/backend/server.py`).

The Python code is shallowly embedded: line items and billing records become
Lean structures, Python numbers become rationals (`ℚ`), `dict.get` with a
default becomes `Option.getD`, the Mongo collections of the relevant routes
become lists held in an explicit `Db` state, `find_one` becomes the first
match of a list, `update_one` updates the first match, `update_many` maps over
the whole list, and a route that can raise `HTTPException` returns an
`Except HttpError` result together with the new state.  The external SMTP
transport is an explicit parameter (`Except String Unit`): `.ok` means the
relay accepted the message, `.error e` means `aiosmtplib.send` raised `e`.
-/

namespace KyberBusiness

/-- A line item dict as the routes receive it: `quantity` and `price` may be
absent (the code reads them with `item.get("quantity", 1)` and
`item.get("price", 0)`), `description` is read with `item.get("description", "")`. -/
structure LineItem where
  description : Option String := none
  quantity : Option ℚ := none
  price : Option ℚ := none
deriving Repr, DecidableEq

/-- The `(subtotal, tax, total)` tuple produced by `calculate_totals`. -/
structure Totals where
  subtotal : ℚ
  tax : ℚ
  total : ℚ
deriving Repr, DecidableEq

/-- Embedding of `calculate_totals` (`backend/server.py` lines 282-286 and
`docker-deploy/backend/server.py` lines 291-295):
`subtotal = sum(item.get("quantity", 1) * item.get("price", 0) for item in items)`;
`tax = subtotal * 0.1`; `total = subtotal + tax`. -/
def calculate_totals (items : List LineItem) : Totals :=
  let subtotal := (items.map (fun item => item.quantity.getD 1 * item.price.getD 0)).sum
  let tax := subtotal * (1 / 10)
  let total := subtotal + tax
  ⟨subtotal, tax, total⟩

/-- `round(q, 2)` on exact rationals: round to the nearest multiple of 1/100
(ties away from the half via Mathlib `round`, i.e. half-up).  Used to state
the spec's display-precision invariant `tax == round(subtotal*0.10, 2)`. -/
def round2 (q : ℚ) : ℚ := (round (q * 100) : ℤ) / 100

/-- Python `f"{x:.2f}"` on an exact number of cents: sign, integer part, a dot
and two fraction digits. -/
def formatCents (cents : ℤ) : String :=
  (if cents < 0 then "-" else "") ++ toString (cents.natAbs / 100) ++ "." ++
    (if cents.natAbs % 100 < 10 then "0" else "") ++ toString (cents.natAbs % 100)

/-- Python `f"{x:.2f}"` on a rational amount. -/
def formatMoney (q : ℚ) : String := formatCents (round (q * 100))

/-- Python `str()` of a numeric value.  Integral values print without a
fraction part; the decimal notation of non-integral values is abstracted (no
claim depends on it). -/
def str_of_num (q : ℚ) : String := if q.den = 1 then toString q.num else toString q

/-- A quote document as stored by `create_quote` and read back by the PDF and
email routes. -/
structure Quote where
  id : String
  quote_number : String
  client_name : String
  client_email : String
  client_address : String
  items : List LineItem
  subtotal : ℚ
  tax : ℚ
  total : ℚ
  notes : String
  valid_until : Option String := none
  status : String
  created_at : String
  created_by : String
deriving Repr, DecidableEq

/-- The branding settings blob (`db.settings`, type "branding").  Each field
is read with `.get(key, default)`, so every field is optional here; the whole
record is optional at use sites because Python treats an absent or empty
dict as falsy. -/
structure Branding where
  company_name : Option String := none
  primary_color : Option String := none
  secondary_color : Option String := none
  accent_color : Option String := none
  tagline : Option String := none
  address : Option String := none
  phone : Option String := none
  email : Option String := none
  website : Option String := none
deriving Repr, DecidableEq

/-- One entry of the `PDF_TEMPLATES` dict. -/
structure PdfTemplate where
  name : String
  primary_color : String
  secondary_color : String
  header_bg : String
  font : String
deriving Repr, DecidableEq

/-- `PDF_TEMPLATES["professional"]`, the designated default theme. -/
def professional_template : PdfTemplate :=
  { name := "Professional", primary_color := "#06b6d4", secondary_color := "#0891b2",
    header_bg := "#06b6d4", font := "Helvetica" }

/-- Embedding of the `PDF_TEMPLATES` dict (`backend/server.py` lines 554-583)
as a lookup by theme id. -/
def PDF_TEMPLATES (id : String) : Option PdfTemplate :=
  if id = "professional" then some professional_template
  else if id = "modern" then
    some { name := "Modern", primary_color := "#8b5cf6", secondary_color := "#7c3aed",
           header_bg := "#8b5cf6", font := "Helvetica" }
  else if id = "classic" then
    some { name := "Classic", primary_color := "#1f2937", secondary_color := "#374151",
           header_bg := "#1f2937", font := "Times-Roman" }
  else if id = "minimal" then
    some { name := "Minimal", primary_color := "#000000", secondary_color := "#6b7280",
           header_bg := "#f3f4f6", font := "Helvetica" }
  else none

/-- The theme ids that `PDF_TEMPLATES` knows. -/
def known_theme_ids : List String := ["professional", "modern", "classic", "minimal"]

/-- Style data attached to a `Paragraph` by `generate_quote_pdf`: the font
size and text color when the code sets them explicitly, and the font name. -/
structure ParaStyle where
  fontSize : Option Nat := none
  textColor : Option String := none
  fontName : String
deriving Repr, DecidableEq

/-- The structured output of the PDF generator: the ordered `elements` list
that is handed to `doc.build`.  The table element carries the cell texts and
every template-dependent style parameter set in its `TableStyle`. -/
inductive PdfElement where
  | paragraph (text : String) (style : ParaStyle)
  | spacer (w h : Nat)
  | table (data : List (List String)) (headerBg : String) (headerTextColor : String)
      (boldFont : String) (grandTotalColor : String)
deriving Repr, DecidableEq

/-- Embedding of `generate_quote_pdf` (`backend/server.py` lines 586-664),
returning the ordered element list with its rendered texts and the
theme-dependent styles. -/
def generate_quote_pdf (quote : Quote) (branding : Option Branding)
    (template : String) : List PdfElement :=
  let tmpl := (PDF_TEMPLATES template).getD professional_template
  let primary_color :=
    match branding with
    | some b => b.primary_color.getD tmpl.primary_color
    | none => tmpl.primary_color
  let header_bg := tmpl.header_bg
  let text_color := if template ≠ "minimal" then "white" else "#1f2937"
  let company_name :=
    match branding with
    | some b => b.company_name.getD "KyberBusiness"
    | none => "KyberBusiness"
  let bold_font := if tmpl.font = "Helvetica" then tmpl.font ++ "-Bold" else tmpl.font
  let table_data :=
    ["Description", "Qty", "Price", "Total"] ::
      (quote.items.map (fun item =>
        let qty := item.quantity.getD 1
        let price := item.price.getD 0
        [item.description.getD "", str_of_num qty, "$" ++ formatMoney price,
          "$" ++ formatMoney (qty * price)]) ++
        [["", "", "Subtotal:", "$" ++ formatMoney quote.subtotal],
         ["", "", "Tax (10%):", "$" ++ formatMoney quote.tax],
         ["", "", "Total:", "$" ++ formatMoney quote.total]])
  [PdfElement.paragraph company_name ⟨some 24, some primary_color, tmpl.font⟩,
   PdfElement.paragraph ("QUOTE: " ++ quote.quote_number) ⟨some 18, none, tmpl.font⟩,
   PdfElement.spacer 1 12,
   PdfElement.paragraph ("<b>Client:</b> " ++ quote.client_name) ⟨none, none, tmpl.font⟩,
   PdfElement.paragraph ("<b>Email:</b> " ++ quote.client_email) ⟨none, none, tmpl.font⟩] ++
  (if quote.client_address ≠ "" then
    [PdfElement.paragraph ("<b>Address:</b> " ++ quote.client_address) ⟨none, none, tmpl.font⟩]
   else []) ++
  [PdfElement.paragraph ("<b>Date:</b> " ++ quote.created_at.take 10) ⟨none, none, tmpl.font⟩] ++
  (if quote.valid_until.getD "" ≠ "" then
    [PdfElement.paragraph ("<b>Valid Until:</b> " ++ quote.valid_until.getD "")
      ⟨none, none, tmpl.font⟩]
   else []) ++
  [PdfElement.spacer 1 20,
   PdfElement.table table_data header_bg text_color bold_font primary_color] ++
  (if quote.notes ≠ "" then
    [PdfElement.spacer 1 20,
     PdfElement.paragraph "<b>Notes:</b>" ⟨none, none, tmpl.font⟩,
     PdfElement.paragraph quote.notes ⟨none, none, tmpl.font⟩]
   else [])

/-- An invoice document as stored by `create_invoice`,
`convert_quote_to_invoice` and read back by the send routes. -/
structure Invoice where
  id : String
  invoice_number : String
  client_name : String
  client_email : String
  client_address : String
  items : List LineItem
  subtotal : ℚ
  tax : ℚ
  total : ℚ
  notes : String
  due_date : Option String := none
  status : String
  payment_link : Option String := none
  created_at : String
  created_by : String
deriving Repr, DecidableEq

/-- The SMTP settings blob (`db.settings`, type "smtp").  Every field is read
with `.get`, so all are optional. -/
structure SmtpConfig where
  host : Option String := none
  port : Option Nat := none
  username : Option String := none
  password : Option String := none
  from_email : Option String := none
  from_name : Option String := none
  use_tls : Bool := true
deriving Repr, DecidableEq

/-- An email template document. -/
structure EmailTemplate where
  id : String
  name : String
  theme : String
  subject : String
  body_html : String
  is_default : Bool
deriving Repr, DecidableEq

/-- The request body of the email-template create/update routes
(`EmailTemplateCreate`). -/
structure EmailTemplateCreate where
  name : String
  theme : String
  subject : String
  body_html : String
deriving Repr, DecidableEq

/-- The Mongo collections and settings documents the verified routes touch.
`smtp = none` / `branding = none` means the corresponding settings document
is absent. -/
structure Db where
  quotes : List Quote := []
  invoices : List Invoice := []
  email_templates : List EmailTemplate := []
  smtp : Option SmtpConfig := none
  branding : Option Branding := none
deriving Repr, DecidableEq

/-- An `HTTPException(status_code, detail)`. -/
structure HttpError where
  status : Nat
  detail : String
deriving Repr, DecidableEq

/-- Mongo `update_one` with a `$set`: apply `f` to the first element matching
`p`, leave the rest untouched. -/
def update_first {α : Type} (p : α → Bool) (f : α → α) : List α → List α
  | [] => []
  | x :: xs => if p x then f x :: xs else x :: update_first p f xs

/-- Mongo `delete_one`: remove the first element matching `p`. -/
def delete_first {α : Type} (p : α → Bool) : List α → List α
  | [] => []
  | x :: xs => if p x then xs else x :: delete_first p xs

/-- The outcome of a send route: the HTTP response, how many network send
attempts (`aiosmtplib.send` calls) were made, and the state afterwards. -/
structure SendResult where
  response : Except HttpError String
  attempts : Nat
  db : Db
deriving Repr

/-- Embedding of `send_quote_email` (`backend/server.py` lines 697-771).
Branding lookup and PDF generation are pure reads; the SMTP settings check
happens before any send attempt.  `transport` stands for the external mail
relay: `.ok` if `aiosmtplib.send` succeeds, `.error e` if it raises `e`.
On success the route sets the status to "sent" only when it was "draft". -/
def send_quote_email (db : Db) (quote_id : String) (template : String)
    (transport : Except String Unit) : SendResult :=
  match db.quotes.find? (fun q => q.id = quote_id) with
  | none => ⟨.error ⟨404, "Quote not found"⟩, 0, db⟩
  | some quote =>
    match db.smtp with
    | none =>
      ⟨.error ⟨400, "SMTP not configured. Please configure email settings first."⟩, 0, db⟩
    | some _ =>
      let _pdf := generate_quote_pdf quote db.branding template
      match transport with
      | .error e => ⟨.error ⟨500, "Failed to send email: " ++ e⟩, 1, db⟩
      | .ok _ =>
        let db' :=
          if quote.status = "draft" then
            { db with quotes := (update_first (fun q => q.id = quote_id)
                (fun q => { q with status := "sent" }) db.quotes) }
          else db
        ⟨.ok "Quote sent successfully", 1, db'⟩

/-- Embedding of `send_invoice_email` (`backend/server.py` lines 980-1059):
same shape as the quote route, with the payment link built from the request's
frontend URL. -/
def send_invoice_email (db : Db) (invoice_id : String) (frontend_url : String)
    (transport : Except String Unit) : SendResult :=
  match db.invoices.find? (fun i => i.id = invoice_id) with
  | none => ⟨.error ⟨404, "Invoice not found"⟩, 0, db⟩
  | some invoice =>
    match db.smtp with
    | none =>
      ⟨.error ⟨400, "SMTP not configured. Please configure email settings first."⟩, 0, db⟩
    | some _ =>
      let _payment_link := frontend_url ++ "/pay/" ++ invoice_id
      match transport with
      | .error e => ⟨.error ⟨500, "Failed to send email: " ++ e⟩, 1, db⟩
      | .ok _ =>
        let db' :=
          if invoice.status = "draft" then
            { db with invoices := (update_first (fun i => i.id = invoice_id)
                (fun i => { i with status := "sent" }) db.invoices) }
          else db
        ⟨.ok "Invoice sent successfully", 1, db'⟩

/-- The request body of `POST /api/quotes` (`QuoteCreate`): `status` defaults
to "draft" but is caller-suppliable. -/
structure QuoteCreate where
  client_name : String
  client_email : String
  client_address : Option String := some ""
  items : List LineItem
  notes : Option String := some ""
  valid_until : Option String := none
  status : String := "draft"
deriving Repr, DecidableEq

/-- The request body of `POST /api/invoices` (`InvoiceCreate`). -/
structure InvoiceCreate where
  client_name : String
  client_email : String
  client_address : Option String := some ""
  items : List LineItem
  notes : Option String := some ""
  due_date : Option String := none
  status : String := "draft"
deriving Repr, DecidableEq

/-- Embedding of `create_quote` (`backend/server.py` lines 454-478).  The
generated uuid, document number, timestamp and authenticated user id are
parameters.  Returns the response document and the state with it inserted. -/
def create_quote (db : Db) (data : QuoteCreate)
    (quote_id quote_number created_at user_id : String) : Quote × Db :=
  let t := calculate_totals data.items
  let quote_doc : Quote :=
    { id := quote_id, quote_number := quote_number,
      client_name := data.client_name, client_email := data.client_email,
      client_address := data.client_address.getD "",
      items := data.items, subtotal := t.subtotal, tax := t.tax, total := t.total,
      notes := data.notes.getD "", valid_until := data.valid_until,
      status := data.status, created_at := created_at, created_by := user_id }
  (quote_doc, { db with quotes := db.quotes ++ [quote_doc] })

/-- Embedding of `create_invoice` (`backend/server.py` lines 775-800). -/
def create_invoice (db : Db) (data : InvoiceCreate)
    (invoice_id invoice_number created_at user_id : String) : Invoice × Db :=
  let t := calculate_totals data.items
  let invoice_doc : Invoice :=
    { id := invoice_id, invoice_number := invoice_number,
      client_name := data.client_name, client_email := data.client_email,
      client_address := data.client_address.getD "",
      items := data.items, subtotal := t.subtotal, tax := t.tax, total := t.total,
      notes := data.notes.getD "", due_date := data.due_date,
      status := data.status, payment_link := none,
      created_at := created_at, created_by := user_id }
  (invoice_doc, { db with invoices := db.invoices ++ [invoice_doc] })

/-- Embedding of `convert_quote_to_invoice` (`backend/server.py` lines
523-551): no status guard; the invoice copies the quote's items and totals
verbatim, starts as "draft", and the quote's status is set to "converted". -/
def convert_quote_to_invoice (db : Db) (quote_id : String)
    (invoice_id invoice_number created_at user_id : String) :
    Except HttpError Invoice × Db :=
  match db.quotes.find? (fun q => q.id = quote_id) with
  | none => (.error ⟨404, "Quote not found"⟩, db)
  | some quote =>
    let invoice_doc : Invoice :=
      { id := invoice_id, invoice_number := invoice_number,
        client_name := quote.client_name, client_email := quote.client_email,
        client_address := quote.client_address,
        items := quote.items, subtotal := quote.subtotal, tax := quote.tax,
        total := quote.total, notes := quote.notes, due_date := none,
        status := "draft", payment_link := none,
        created_at := created_at, created_by := user_id }
    (.ok invoice_doc,
      { db with
          invoices := db.invoices ++ [invoice_doc],
          quotes := (update_first (fun q => q.id = quote_id)
            (fun q => { q with status := "converted" }) db.quotes) })

/-- Embedding of the `DEFAULT_TEMPLATES` seed list (`backend/server.py`
lines 1291-1395): five built-in invoice email templates, ids carrying the
reserved "default-" prefix, only the first marked as default.  Apostrophes in
the HTML bodies are written with the \x27 escape. -/
def DEFAULT_TEMPLATES : List EmailTemplate :=
  [{ id := "default-professional", name := "Professional Invoice",
     theme := "professional",
     subject := "Invoice #{invoice_number} from KyberBusiness",
     body_html := "
<div style=\"font-family: Georgia, serif; max-width: 600px; margin: 0 auto; padding: 40px; background: #ffffff; border: 1px solid #e0e0e0;\">
    <h1 style=\"color: #333; border-bottom: 2px solid #06b6d4; padding-bottom: 10px;\">INVOICE</h1>
    <p style=\"color: #666;\">Invoice Number: <strong>#{invoice_number}</strong></p>
    <p style=\"color: #666;\">Amount Due: <strong>${total}</strong></p>
    <p style=\"color: #666;\">Due Date: <strong>{due_date}</strong></p>
    <div style=\"margin: 30px 0;\">
        <a href=\"{payment_link}\" style=\"background: #06b6d4; color: white; padding: 15px 30px; text-decoration: none; border-radius: 5px;\">Pay Now</a>
    </div>
    <p style=\"color: #999; font-size: 12px;\">Thank you for your business.</p>
</div>
        ",
     is_default := true },
   { id := "default-modern", name := "Modern Invoice", theme := "modern",
     subject := "Your Invoice #{invoice_number} is Ready",
     body_html := "
<div style=\"font-family: \x27Segoe UI\x27, sans-serif; max-width: 600px; margin: 0 auto; padding: 0;\">
    <div style=\"background: linear-gradient(135deg, #06b6d4, #d946ef); padding: 30px; text-align: center;\">
        <h1 style=\"color: white; margin: 0;\">Invoice Ready</h1>
    </div>
    <div style=\"padding: 30px; background: #f8f9fa;\">
        <p style=\"font-size: 18px; color: #333;\">Invoice <strong>#{invoice_number}</strong></p>
        <div style=\"background: white; padding: 20px; border-radius: 10px; margin: 20px 0;\">
            <p style=\"margin: 0; font-size: 24px; color: #06b6d4;\"><strong>${total}</strong></p>
            <p style=\"margin: 5px 0 0; color: #666;\">Due: {due_date}</p>
        </div>
        <a href=\"{payment_link}\" style=\"display: block; background: #d946ef; color: white; padding: 15px; text-decoration: none; border-radius: 25px; text-align: center;\">Pay Invoice</a>
    </div>
</div>
        ",
     is_default := false },
   { id := "default-minimal", name := "Minimal Invoice", theme := "minimal",
     subject := "Invoice #{invoice_number}",
     body_html := "
<div style=\"font-family: -apple-system, sans-serif; max-width: 500px; margin: 0 auto; padding: 40px;\">
    <p style=\"color: #333; margin-bottom: 30px;\">Hi,</p>
    <p style=\"color: #666;\">Your invoice <strong>#{invoice_number}</strong> for <strong>${total}</strong> is due on {due_date}.</p>
    <p style=\"margin: 30px 0;\">
        <a href=\"{payment_link}\" style=\"color: #06b6d4; text-decoration: none; border-bottom: 2px solid #06b6d4; padding-bottom: 2px;\">Pay now →</a>
    </p>
    <p style=\"color: #999; font-size: 14px;\">Thanks,<br>KyberBusiness</p>
</div>
        ",
     is_default := false },
   { id := "default-bold", name := "Bold Invoice", theme := "bold",
     subject := "💎 INVOICE #{invoice_number} - Action Required",
     body_html := "
<div style=\"font-family: \x27Impact\x27, sans-serif; max-width: 600px; margin: 0 auto; background: #0f172a; padding: 0;\">
    <div style=\"background: #d946ef; padding: 20px; text-align: center;\">
        <h1 style=\"color: white; margin: 0; font-size: 28px; letter-spacing: 3px;\">INVOICE</h1>
    </div>
    <div style=\"padding: 30px; text-align: center;\">
        <p style=\"color: #06b6d4; font-size: 48px; margin: 0;\"><strong>${total}</strong></p>
        <p style=\"color: #94a3b8; font-size: 14px;\">Invoice #{invoice_number}</p>
        <p style=\"color: #94a3b8;\">Due: {due_date}</p>
        <a href=\"{payment_link}\" style=\"display: inline-block; margin-top: 20px; background: #06b6d4; color: #0f172a; padding: 20px 40px; text-decoration: none; font-weight: bold; font-size: 18px;\">PAY NOW</a>
    </div>
</div>
        ",
     is_default := false },
   { id := "default-classic", name := "Classic Invoice", theme := "classic",
     subject := "Invoice #{invoice_number} - Payment Request",
     body_html := "
<div style=\"font-family: \x27Times New Roman\x27, serif; max-width: 600px; margin: 0 auto; padding: 40px; border: 3px double #333;\">
    <div style=\"text-align: center; border-bottom: 1px solid #333; padding-bottom: 20px;\">
        <h1 style=\"color: #333; margin: 0; font-style: italic;\">KyberBusiness</h1>
        <p style=\"color: #666; margin: 5px 0;\">Invoice</p>
    </div>
    <div style=\"padding: 30px 0;\">
        <table style=\"width: 100%;\">
            <tr><td style=\"color: #666;\">Invoice No:</td><td style=\"text-align: right;\"><strong>#{invoice_number}</strong></td></tr>
            <tr><td style=\"color: #666;\">Amount:</td><td style=\"text-align: right;\"><strong>${total}</strong></td></tr>
            <tr><td style=\"color: #666;\">Due Date:</td><td style=\"text-align: right;\">{due_date}</td></tr>
        </table>
    </div>
    <div style=\"text-align: center; padding-top: 20px; border-top: 1px solid #333;\">
        <a href=\"{payment_link}\" style=\"color: #06b6d4; text-decoration: none;\">Click here to pay</a>
    </div>
</div>
        ",
     is_default := false }]

/-- Embedding of `list_email_templates` (`backend/server.py` lines
1397-1405): read up to 100 templates; when the collection is empty, seed it
with `DEFAULT_TEMPLATES` and return them. -/
def list_email_templates (db : Db) : List EmailTemplate × Db :=
  let templates := db.email_templates.take 100
  if templates.isEmpty then
    (DEFAULT_TEMPLATES, { db with email_templates := db.email_templates ++ DEFAULT_TEMPLATES })
  else (templates, db)

/-- Embedding of `update_email_template` (`backend/server.py` lines
1421-1434): `update_one` sets name/theme/subject/body on the first template
with the given id — with no guard on the reserved "default-" prefix — and the
route 404s exactly when no template matched (`update_first` never changes
ids, so re-reading the id after the update succeeds iff the update matched). -/
def update_email_template (db : Db) (template_id : String)
    (data : EmailTemplateCreate) : Except HttpError EmailTemplate × Db :=
  let ts := update_first (fun t => t.id = template_id)
    (fun t => { t with name := data.name, theme := data.theme,
                       subject := data.subject, body_html := data.body_html })
    db.email_templates
  match ts.find? (fun t => t.id = template_id) with
  | some t => (.ok t, { db with email_templates := ts })
  | none => (.error ⟨404, "Template not found"⟩, { db with email_templates := ts })

/-- Embedding of `set_default_template` (`backend/server.py` lines
1436-1442): first `update_many` clears `is_default` on every template, then
`update_one` sets it on the first template with the given id; 404 when no
template matched — the clearing has already happened by then. -/
def set_default_template (db : Db) (template_id : String) :
    Except HttpError String × Db :=
  let cleared := db.email_templates.map (fun t => { t with is_default := false })
  let ts := update_first (fun t => t.id = template_id)
    (fun t => { t with is_default := true }) cleared
  if (cleared.find? (fun t => t.id = template_id)).isSome then
    (.ok "Default template updated", { db with email_templates := ts })
  else
    (.error ⟨404, "Template not found"⟩, { db with email_templates := ts })

/-- Python `str.startswith`: list-based prefix test (kernel-reducible, unlike
`String.startsWith`). -/
def startswith (s pre : String) : Bool := pre.data.isPrefixOf s.data

/-- Embedding of `delete_email_template` (`backend/server.py` lines
1444-1453): a found template whose id carries the reserved "default-" prefix
is refused with a 400 and left in place; otherwise `delete_one` removes the
first match and the route 404s when nothing matched. -/
def delete_email_template (db : Db) (template_id : String) :
    Except HttpError String × Db :=
  match db.email_templates.find? (fun t => t.id = template_id) with
  | some t =>
    if startswith t.id "default-" then
      (.error ⟨400, "Cannot delete default templates"⟩, db)
    else
      (.ok "Template deleted successfully",
        { db with email_templates := delete_first (fun x => x.id = template_id) db.email_templates })
  | none => (.error ⟨404, "Template not found"⟩, db)

/-- The opening-brace character of a placeholder token. -/
def lbrace : Char := Char.ofNat 123

/-- The closing-brace character of a placeholder token. -/
def rbrace : Char := Char.ofNat 125

/-- Case-sensitive lookup of a placeholder value. -/
def lookup_value (vals : List (String × String)) (key : String) : Option String :=
  (vals.find? (fun p => p.fst = key)).map Prod.snd

/-- Modelled from the spec: the repository stores the placeholder-bearing
`DEFAULT_TEMPLATES`, but no code under src/ applies them (the send routes
build ad-hoc HTML instead — the split the spec flags in §4.4/§7).  This is
the substitution engine the spec describes: "Placeholder substitution is
literal string replacement; a placeholder with no matching value resolves to
an empty string, never to a literal error."  `fuel` bounds the recursion;
each step consumes at least one character, so the input length suffices. -/
def subst_chars (vals : List (String × String)) : Nat → List Char → List Char
  | 0, cs => cs
  | _ + 1, [] => []
  | fuel + 1, c :: rest =>
    if c = lbrace then
      let name := rest.takeWhile (fun d => ¬ d = rbrace)
      match rest.dropWhile (fun d => ¬ d = rbrace) with
      | [] => c :: rest
      | _ :: tail =>
        ((lookup_value vals (String.mk name)).getD "").toList ++ subst_chars vals fuel tail
    else c :: subst_chars vals fuel rest

/-- Modelled from the spec: literal replacement of every `\x7bname\x7d` token
in the template by its value, or by the empty string when no value matches. -/
def substitute_placeholders (vals : List (String × String)) (s : String) : String :=
  String.mk (subst_chars vals s.toList.length s.toList)

/-- A concrete quote used to instantiate witness theorems. -/
def sample_quote : Quote :=
  { id := "q1", quote_number := "QT-20250101-AB12CD34", client_name := "Acme",
    client_email := "client@acme.test", client_address := "",
    items := [{ description := some "Work", quantity := some 2, price := some 50 }],
    subtotal := 100, tax := 10, total := 110, notes := "", valid_until := none,
    status := "draft", created_at := "2025-01-01T00:00:00+00:00", created_by := "u1" }

/-- A concrete invoice used to instantiate witness theorems. -/
def sample_invoice : Invoice :=
  { id := "i1", invoice_number := "INV-20250101-AB12CD34", client_name := "Acme",
    client_email := "client@acme.test", client_address := "",
    items := [{ description := some "Work", quantity := some 2, price := some 50 }],
    subtotal := 100, tax := 10, total := 110, notes := "", due_date := none,
    status := "draft", payment_link := none,
    created_at := "2025-01-01T00:00:00+00:00", created_by := "u1" }

/-- A concrete SMTP configuration. -/
def sample_smtp : SmtpConfig :=
  { host := some "smtp.test", port := some 587, username := some "mailer",
    password := some "encrypted", from_email := some "billing@acme.test",
    from_name := some "Acme" }

/-- A state holding the sample records and an SMTP configuration. -/
def sample_db : Db :=
  { quotes := [sample_quote], invoices := [sample_invoice], smtp := some sample_smtp }

/-- The same state with no SMTP settings document. -/
def sample_db_nosmtp : Db :=
  { quotes := [sample_quote], invoices := [sample_invoice] }

/-- A custom template marked as the current default. -/
def sample_template : EmailTemplate :=
  { id := "t1", name := "Tide", theme := "professional",
    subject := "Hello", body_html := "<p>Hi</p>", is_default := true }

/-- A template store satisfying the exactly-one-default invariant. -/
def one_default_db : Db := { email_templates := [sample_template] }

/-- A template store seeded with the built-in templates. -/
def seeded_db : Db := { email_templates := DEFAULT_TEMPLATES }

/-- An empty store. -/
def empty_db : Db := {}

/-- A create request that carries a non-draft status. -/
def nondraft_request : QuoteCreate :=
  { client_name := "Acme", client_email := "client@acme.test",
    items := [], status := "sent" }

/-- A quote that has already been converted once. -/
def converted_quote : Quote := { sample_quote with id := "q2", status := "converted" }

/-- A store holding only the already-converted quote. -/
def sample_db_converted : Db := { quotes := [converted_quote] }

end KyberBusiness

namespace KyberBusiness

/-- A left fold adding `f x` at each step computes the sum of the mapped list
on top of the starting accumulator. -/
theorem foldl_add_map {α : Type} (f : α → ℚ) (l : List α) (a : ℚ) :
    l.foldl (fun acc x => acc + f x) a = a + (l.map f).sum := by
  induction l generalizing a with
  | nil => simp
  | cons x xs ih => simp [ih, add_assoc]

/-- C1: `calculate_totals` sums quantity × unit price over the items exactly
once in input order (stated as a left fold over the input list), with a
missing quantity defaulting to 1 and a missing price defaulting to 0; tax is
subtotal × 0.10 and total is subtotal + tax; and on the single item
{quantity: 2, price: 50.00} it yields subtotal 100.00, tax 10.00,
total 110.00. -/
theorem calculate_totals_spec (items : List LineItem) :
    (calculate_totals items).subtotal =
      items.foldl (fun acc item => acc + item.quantity.getD 1 * item.price.getD 0) 0 ∧
    (calculate_totals items).tax = (calculate_totals items).subtotal * (10 / 100) ∧
    (calculate_totals items).total =
      (calculate_totals items).subtotal + (calculate_totals items).tax ∧
    calculate_totals [{ quantity := some 2, price := some 50 }] =
      ⟨100, 10, 110⟩ := by
  refine ⟨?_, by norm_num [calculate_totals], by simp [calculate_totals], by
    norm_num [calculate_totals]⟩
  simp only [calculate_totals]
  rw [foldl_add_map, zero_add]

/-- C2 counterexample: on the single item {price: 0.15} the code stores
`tax = subtotal * 0.1 = 0.015` at full precision, which is not equal to
`round(subtotal*0.10, 2)` (0.015 is not a multiple of a cent). -/
theorem calculate_totals_tax_not_rounded :
    ¬ ((calculate_totals [{ price := some (3 / 20) }]).tax =
        round2 ((calculate_totals [{ price := some (3 / 20) }]).subtotal * (10 / 100))) := by
  norm_num [calculate_totals, round2, round_eq]

/-- C2 (amended): for every item list the totals satisfy
`tax == subtotal * 0.10` exactly (the code stores the unrounded product) and
`total == subtotal + tax`, and the result is invariant under permutation of
the items. -/
theorem calculate_totals_invariant (l l' : List LineItem) (h : l.Perm l') :
    (calculate_totals l).tax = (calculate_totals l).subtotal * (10 / 100) ∧
    (calculate_totals l).total = (calculate_totals l).subtotal + (calculate_totals l).tax ∧
    calculate_totals l = calculate_totals l' := by
  refine ⟨by norm_num [calculate_totals], by simp [calculate_totals], ?_⟩
  simp only [calculate_totals]
  rw [List.Perm.sum_eq (h.map _)]

/-- C2 witness: the amended invariant instantiated on a concrete two-item
list and its reversal. -/
theorem calculate_totals_invariant_witness :
    (calculate_totals [{ quantity := some 2, price := some 50 },
        { quantity := some 1, price := some 3 }]).tax =
      (calculate_totals [{ quantity := some 2, price := some 50 },
        { quantity := some 1, price := some 3 }]).subtotal * (10 / 100) ∧
    (calculate_totals [{ quantity := some 2, price := some 50 },
        { quantity := some 1, price := some 3 }]).total =
      (calculate_totals [{ quantity := some 2, price := some 50 },
        { quantity := some 1, price := some 3 }]).subtotal +
      (calculate_totals [{ quantity := some 2, price := some 50 },
        { quantity := some 1, price := some 3 }]).tax ∧
    calculate_totals [{ quantity := some 2, price := some 50 },
        { quantity := some 1, price := some 3 }] =
      calculate_totals [{ quantity := some 1, price := some 3 },
        { quantity := some 2, price := some 50 }] :=
  calculate_totals_invariant _ _ (by decide)

/-- C3: rendering a quote with a theme id outside the known set
("professional", "modern", "classic", "minimal") produces exactly the same
element list — ordering, styles and rendered text — as rendering with the
default "professional" theme. -/
theorem generate_quote_pdf_unknown_theme (quote : Quote) (branding : Option Branding)
    (template : String) (h : template ∉ known_theme_ids) :
    generate_quote_pdf quote branding template =
      generate_quote_pdf quote branding "professional" := by
  simp only [known_theme_ids, List.mem_cons, not_or, List.not_mem_nil] at h
  obtain ⟨h1, h2, h3, h4, -⟩ := h
  have htm : PDF_TEMPLATES template = none := by
    simp [PDF_TEMPLATES, h1, h2, h3, h4]
  simp only [generate_quote_pdf]
  rw [htm]
  simp [PDF_TEMPLATES, h4]

/-- C3 witness: on a concrete quote, the unknown theme id "neon" renders
exactly like "professional". -/
theorem generate_quote_pdf_unknown_theme_witness :
    "neon" ∉ known_theme_ids ∧
    generate_quote_pdf sample_quote none "neon" =
      generate_quote_pdf sample_quote none "professional" :=
  ⟨by decide, generate_quote_pdf_unknown_theme sample_quote none "neon" (by decide)⟩

/-- `update_first` with a predicate-preserving function rewrites exactly the
element that `find?` returns. -/
theorem find?_update_first {α : Type} (p : α → Bool) (f : α → α)
    (hf : ∀ y, p (f y) = p y) (l : List α) (x : α)
    (hx : l.find? p = some x) :
    (update_first p f l).find? p = some (f x) := by
  induction l with
  | nil => simp at hx
  | cons a t ih =>
    simp only [update_first]
    by_cases hp : p a
    · rw [List.find?_cons_of_pos _ hp] at hx
      injection hx with hx
      subst hx
      rw [if_pos hp, List.find?_cons_of_pos]
      rw [hf]; exact hp
    · rw [List.find?_cons_of_neg _ hp] at hx
      rw [if_neg hp, List.find?_cons_of_neg _ hp]
      exact ih hx

/-- Mapping a function that does not disturb the predicate does not change
whether `find?` succeeds. -/
theorem find?_isSome_map {α : Type} (g : α → α) (p : α → Bool)
    (hp : ∀ x, p (g x) = p x) (l : List α) :
    ((l.map g).find? p).isSome = (l.find? p).isSome := by
  induction l with
  | nil => simp
  | cons a t ih =>
    by_cases h : p a
    · rw [List.map_cons, List.find?_cons_of_pos _ ((hp a).trans (by rw [h])),
        List.find?_cons_of_pos _ h]
      rfl
    · rw [List.map_cons, List.find?_cons_of_neg _ (by rw [hp a]; exact h),
        List.find?_cons_of_neg _ h]
      exact ih

/-- C4: a send request for an existing quote or invoice made while no SMTP
settings document is stored returns the distinct 400 "SMTP not configured"
error, makes zero network send attempts and leaves the state unchanged; that
error differs from every transport-level 500 dispatch failure. -/
theorem send_requires_smtp_config (db : Db) (qid tpl iid furl : String)
    (transport : Except String Unit) (hs : db.smtp = none)
    (hq : (db.quotes.find? (fun q => q.id = qid)).isSome)
    (hi : (db.invoices.find? (fun i => i.id = iid)).isSome) :
    send_quote_email db qid tpl transport =
      ⟨.error ⟨400, "SMTP not configured. Please configure email settings first."⟩, 0, db⟩ ∧
    send_invoice_email db iid furl transport =
      ⟨.error ⟨400, "SMTP not configured. Please configure email settings first."⟩, 0, db⟩ ∧
    ∀ e : String,
      (⟨400, "SMTP not configured. Please configure email settings first."⟩ : HttpError) ≠
        ⟨500, "Failed to send email: " ++ e⟩ := by
  obtain ⟨q, hfq⟩ := Option.isSome_iff_exists.mp hq
  obtain ⟨i, hfi⟩ := Option.isSome_iff_exists.mp hi
  refine ⟨by simp [send_quote_email, hfq, hs], by simp [send_invoice_email, hfi, hs], ?_⟩
  intro e h
  simp [HttpError.mk.injEq] at h

/-- C4 witness: the configuration-missing error on the concrete store without
SMTP settings. -/
theorem send_requires_smtp_config_witness :
    send_quote_email sample_db_nosmtp "q1" "professional" (.ok ()) =
      ⟨.error ⟨400, "SMTP not configured. Please configure email settings first."⟩, 0,
        sample_db_nosmtp⟩ ∧
    send_invoice_email sample_db_nosmtp "i1" "https://front.test" (.ok ()) =
      ⟨.error ⟨400, "SMTP not configured. Please configure email settings first."⟩, 0,
        sample_db_nosmtp⟩ ∧
    ∀ e : String,
      (⟨400, "SMTP not configured. Please configure email settings first."⟩ : HttpError) ≠
        ⟨500, "Failed to send email: " ++ e⟩ :=
  send_requires_smtp_config sample_db_nosmtp "q1" "professional" "i1" "https://front.test"
    (.ok ()) rfl (by decide) (by decide)

/-- C5: with SMTP configured, a successful send of a draft quote (resp.
invoice) marks exactly that record "sent", and a second successful send then
leaves the state untouched; a successful send of a non-draft record leaves
the state unchanged; a transport-level failure surfaces as the 500 dispatch
error and performs no status transition. -/
theorem send_status_transitions (db : Db) (qid tpl iid furl : String)
    (cfg : SmtpConfig) (hs : db.smtp = some cfg)
    (q : Quote) (hq : db.quotes.find? (fun x => x.id = qid) = some q)
    (i : Invoice) (hi : db.invoices.find? (fun x => x.id = iid) = some i) :
    (q.status = "draft" →
      (send_quote_email db qid tpl (.ok ())).response = .ok "Quote sent successfully" ∧
      (send_quote_email db qid tpl (.ok ())).db.quotes.find? (fun x => x.id = qid) =
        some { q with status := "sent" } ∧
      send_quote_email ((send_quote_email db qid tpl (.ok ())).db) qid tpl (.ok ()) =
        ⟨.ok "Quote sent successfully", 1, (send_quote_email db qid tpl (.ok ())).db⟩) ∧
    (¬ q.status = "draft" →
      send_quote_email db qid tpl (.ok ()) = ⟨.ok "Quote sent successfully", 1, db⟩) ∧
    (∀ e, send_quote_email db qid tpl (.error e) =
      ⟨.error ⟨500, "Failed to send email: " ++ e⟩, 1, db⟩) ∧
    (i.status = "draft" →
      (send_invoice_email db iid furl (.ok ())).response = .ok "Invoice sent successfully" ∧
      (send_invoice_email db iid furl (.ok ())).db.invoices.find? (fun x => x.id = iid) =
        some { i with status := "sent" } ∧
      send_invoice_email ((send_invoice_email db iid furl (.ok ())).db) iid furl (.ok ()) =
        ⟨.ok "Invoice sent successfully", 1, (send_invoice_email db iid furl (.ok ())).db⟩) ∧
    (¬ i.status = "draft" →
      send_invoice_email db iid furl (.ok ()) = ⟨.ok "Invoice sent successfully", 1, db⟩) ∧
    (∀ e, send_invoice_email db iid furl (.error e) =
      ⟨.error ⟨500, "Failed to send email: " ++ e⟩, 1, db⟩) := by
  refine ⟨?_, ?_, ?_, ?_, ?_, ?_⟩
  · intro hdraft
    have hfindU : (update_first (fun x => x.id = qid)
        (fun x => { x with status := "sent" }) db.quotes).find? (fun x => x.id = qid) =
        some { q with status := "sent" } :=
      find?_update_first (fun x => x.id = qid)
        (fun x => { x with status := "sent" }) (fun y => rfl) db.quotes q hq
    have hdb : (send_quote_email db qid tpl (.ok ())).db =
        { db with quotes := (update_first (fun x => x.id = qid)
          (fun x => { x with status := "sent" }) db.quotes) } := by
      simp [send_quote_email, hq, hs, hdraft]
    refine ⟨by simp [send_quote_email, hq, hs], by rw [hdb]; exact hfindU, ?_⟩
    rw [hdb]
    simp [send_quote_email, hfindU, hs]
  · intro hnd
    simp [send_quote_email, hq, hs, hnd]
  · intro e
    simp [send_quote_email, hq, hs]
  · intro hdraft
    have hfindU : (update_first (fun x => x.id = iid)
        (fun x => { x with status := "sent" }) db.invoices).find? (fun x => x.id = iid) =
        some { i with status := "sent" } :=
      find?_update_first (fun x => x.id = iid)
        (fun x => { x with status := "sent" }) (fun y => rfl) db.invoices i hi
    have hdb : (send_invoice_email db iid furl (.ok ())).db =
        { db with invoices := (update_first (fun x => x.id = iid)
          (fun x => { x with status := "sent" }) db.invoices) } := by
      simp [send_invoice_email, hi, hs, hdraft]
    refine ⟨by simp [send_invoice_email, hi, hs], by rw [hdb]; exact hfindU, ?_⟩
    rw [hdb]
    simp [send_invoice_email, hfindU, hs]
  · intro hnd
    simp [send_invoice_email, hi, hs, hnd]
  · intro e
    simp [send_invoice_email, hi, hs]

/-- C5 witness: sending the concrete draft quote succeeds and re-reading it
shows status "sent". -/
theorem send_status_transitions_witness :
    (send_quote_email sample_db "q1" "professional" (.ok ())).response =
      .ok "Quote sent successfully" ∧
    (send_quote_email sample_db "q1" "professional" (.ok ())).db.quotes.find?
      (fun x => x.id = "q1") = some { sample_quote with status := "sent" } :=
  have h := (send_status_transitions sample_db "q1" "professional" "i1" "https://front.test"
    sample_smtp rfl sample_quote (by decide) sample_invoice (by decide)).1 (by decide)
  ⟨h.1, h.2.1⟩

/-- Clearing the default flag on every template leaves no defaults. -/
theorem countP_map_clear (l : List EmailTemplate) :
    (l.map (fun t => { t with is_default := false })).countP (fun t => t.is_default) = 0 := by
  induction l with
  | nil => simp
  | cons a t ih => simp [List.countP_cons, ih]

/-- Setting the default flag on the first match of an all-cleared list leaves
one default when the id exists and zero otherwise. -/
theorem countP_update_first_set (tid : String) (l : List EmailTemplate)
    (h : ∀ t ∈ l, t.is_default = false) :
    (update_first (fun t => t.id = tid) (fun t => { t with is_default := true }) l).countP
        (fun t => t.is_default) =
      if (l.find? (fun t => t.id = tid)).isSome then 1 else 0 := by
  induction l with
  | nil => simp [update_first]
  | cons a t ih =>
    by_cases hp : a.id = tid
    · rw [update_first, if_pos (by simpa using hp), List.find?_cons_of_pos _ (by simpa using hp)]
      have ht : t.countP (fun x => x.is_default) = 0 :=
        List.countP_eq_zero.mpr (fun x hx => by
          simp [h x (List.mem_cons_of_mem _ hx)])
      simp [List.countP_cons, ht]
    · rw [update_first, if_neg (by simpa using hp), List.find?_cons_of_neg _ (by simpa using hp)]
      rw [List.countP_cons]
      have ha : (a.is_default : Bool) = false := h a (List.mem_cons_self a t)
      simp [ha, ih (fun x hx => h x (List.mem_cons_of_mem _ hx))]

/-- The state produced by `set_default_template` is the same in the 200 and
404 branches: all defaults cleared, then the first match (if any) set. -/
theorem set_default_template_state (db : Db) (tid : String) :
    (set_default_template db tid).2.email_templates =
      update_first (fun t => t.id = tid) (fun t => { t with is_default := true })
        (db.email_templates.map (fun t => { t with is_default := false })) := by
  simp only [set_default_template]
  split <;> rfl

/-- C6 counterexample: from a store satisfying the exactly-one-default
invariant, a set-default call naming a nonexistent template id ends with
zero defaults — the previous default is cleared and nothing replaces it. -/
theorem set_default_template_missing_id_violates :
    one_default_db.email_templates.countP (fun t => t.is_default) = 1 ∧
    (set_default_template one_default_db "missing").2.email_templates.countP
      (fun t => t.is_default) = 0 := by
  decide

/-- C6 (amended): after any set-default call at most one template is the
default; when the named id exists the call establishes exactly one default
(clearing the previous one), and when it does not exist the call clears
every default, leaving zero. -/
theorem set_default_template_at_most_one (db : Db) (tid : String) :
    (set_default_template db tid).2.email_templates.countP (fun t => t.is_default) ≤ 1 ∧
    ((db.email_templates.find? (fun t => t.id = tid)).isSome →
      (set_default_template db tid).2.email_templates.countP (fun t => t.is_default) = 1) ∧
    (db.email_templates.find? (fun t => t.id = tid) = none →
      (set_default_template db tid).2.email_templates.countP (fun t => t.is_default) = 0) := by
  have hcount : (set_default_template db tid).2.email_templates.countP
      (fun t => t.is_default) =
      if ((db.email_templates.map (fun t => { t with is_default := false })).find?
          (fun t => t.id = tid)).isSome then 1 else 0 := by
    rw [set_default_template_state]
    exact countP_update_first_set tid _ (by
      intro x hx
      obtain ⟨y, _, rfl⟩ := List.mem_map.mp hx
      rfl)
  have hsome : ((db.email_templates.map (fun t => { t with is_default := false })).find?
      (fun t => t.id = tid)).isSome =
      ((db.email_templates.find? (fun t => t.id = tid)).isSome) :=
    find?_isSome_map (fun t => { t with is_default := false })
      (fun t => t.id = tid) (fun x => rfl) db.email_templates
  rw [hcount, hsome]
  refine ⟨?_, ?_, ?_⟩
  · by_cases h : (db.email_templates.find? (fun t => t.id = tid)).isSome <;> simp [h]
  · intro h; simp [h]
  · intro h; simp [h]

/-- C6 witness: setting the existing template "t1" as default ends with
exactly one default. -/
theorem set_default_template_at_most_one_witness :
    (set_default_template one_default_db "t1").2.email_templates.countP
        (fun t => t.is_default) ≤ 1 ∧
    (set_default_template one_default_db "t1").2.email_templates.countP
        (fun t => t.is_default) = 1 :=
  ⟨(set_default_template_at_most_one one_default_db "t1").1,
   (set_default_template_at_most_one one_default_db "t1").2.1 (by decide)⟩

/-- C7 counterexample: the built-in template "default-professional" is not
immutable — the update route rewrites its stored name with no guard on the
reserved prefix. -/
theorem update_email_template_changes_builtin :
    ((update_email_template seeded_db "default-professional"
        { name := "Hacked", theme := "modern", subject := "s2", body_html := "b2" }
      ).2.email_templates.find? (fun t => t.id = "default-professional")).map
        (fun t => t.name) = some "Hacked" ∧
    (seeded_db.email_templates.find? (fun t => t.id = "default-professional")).map
        (fun t => t.name) = some "Professional Invoice" := by
  decide

/-- C7 (amended): built-in templates (reserved id prefix "default-") are
non-deletable — deleting one returns the 400 error and leaves the store
unchanged — and the fixed built-in set seeds the store on the first read when
it is empty; the update route, however, modifies built-ins like any other
template. -/
theorem builtin_templates_protected (db : Db) (tid : String)
    (hfind : (db.email_templates.find? (fun x => x.id = tid)).isSome)
    (hpre : startswith tid "default-" = true) :
    delete_email_template db tid = (.error ⟨400, "Cannot delete default templates"⟩, db) ∧
    ∀ db2 : Db, db2.email_templates = [] →
      list_email_templates db2 =
        (DEFAULT_TEMPLATES, { db2 with email_templates := DEFAULT_TEMPLATES }) := by
  constructor
  · obtain ⟨t, hft⟩ := Option.isSome_iff_exists.mp hfind
    have hid : t.id = tid := by
      have := List.find?_some hft
      simpa using this
    simp [delete_email_template, hft, hid, hpre]
  · intro db2 h2
    simp [list_email_templates, h2]

/-- C7 witness: deleting the concrete built-in "default-professional" from
the seeded store fails with the 400 error and changes nothing, and a read on
an empty store seeds the built-ins. -/
theorem builtin_templates_protected_witness :
    delete_email_template seeded_db "default-professional" =
      (.error ⟨400, "Cannot delete default templates"⟩, seeded_db) ∧
    ∀ db2 : Db, db2.email_templates = [] →
      list_email_templates db2 =
        (DEFAULT_TEMPLATES, { db2 with email_templates := DEFAULT_TEMPLATES }) :=
  builtin_templates_protected seeded_db "default-professional" (by decide) (by decide)

/-- `subst_chars` maps the empty character list to itself at any fuel. -/
theorem subst_chars_nil (vals : List (String × String)) (fuel : Nat) :
    subst_chars vals fuel [] = [] := by
  cases fuel <;> simp [subst_chars]

/-- `takeWhile` collects exactly the name characters before the closing
brace. -/
theorem takeWhile_no_rbrace (name : List Char) (h : ∀ c ∈ name, ¬ c = rbrace) :
    (name ++ [rbrace]).takeWhile (fun d => ¬ d = rbrace) = name := by
  induction name with
  | nil => simp
  | cons a t ih =>
    have ha : ¬ a = rbrace := h a (List.mem_cons_self a t)
    rw [List.cons_append, List.takeWhile_cons, if_pos (by simp [ha]),
      ih (fun c hc => h c (List.mem_cons_of_mem _ hc))]

/-- `dropWhile` leaves exactly the closing brace and what follows. -/
theorem dropWhile_no_rbrace (name : List Char) (h : ∀ c ∈ name, ¬ c = rbrace) :
    (name ++ [rbrace]).dropWhile (fun d => ¬ d = rbrace) = [rbrace] := by
  induction name with
  | nil => simp
  | cons a t ih =>
    have ha : ¬ a = rbrace := h a (List.mem_cons_self a t)
    rw [List.cons_append, List.dropWhile_cons, if_pos (by simp [ha]),
      ih (fun c hc => h c (List.mem_cons_of_mem _ hc))]

/-- One substitution step on a lone placeholder token. -/
theorem subst_chars_token (vals : List (String × String)) (fuel : Nat)
    (name : List Char) (h : ∀ c ∈ name, ¬ c = rbrace) :
    subst_chars vals (fuel + 1) (lbrace :: (name ++ [rbrace])) =
      ((lookup_value vals (String.mk name)).getD "").toList := by
  rw [subst_chars, if_pos rfl, takeWhile_no_rbrace name h, dropWhile_no_rbrace name h]
  simp [subst_chars_nil]

/-- C8: placeholder substitution is literal string replacement — the template
"Invoice #\x7binvoice_number\x7d total \x7btotal\x7d" with
invoice_number="INV-001" and total=150.0 (money-formatted to two decimals)
yields "Invoice #INV-001 total 150.00" — and a placeholder token whose name
has no matching value resolves to the empty string, never an error marker. -/
theorem substitute_placeholders_spec :
    substitute_placeholders [("invoice_number", "INV-001"), ("total", formatMoney 150)]
        "Invoice #\x7binvoice_number\x7d total \x7btotal\x7d" =
      "Invoice #INV-001 total 150.00" ∧
    ∀ (vals : List (String × String)) (k : String),
      lookup_value vals k = none → (∀ c ∈ k.data, ¬ c = rbrace) →
      substitute_placeholders vals ("\x7b" ++ k ++ "\x7d") = "" := by
  constructor
  · have h1 : round ((150 : ℚ) * 100) = 15000 := by norm_num [round_eq]
    have h150 : formatMoney 150 = "150.00" := by
      simp only [formatMoney, h1]; decide
    rw [h150]
    decide
  · intro vals k hnone hk
    obtain ⟨kd⟩ := k
    have hdata : ("\x7b" ++ String.mk kd ++ "\x7d").data = lbrace :: (kd ++ [rbrace]) := rfl
    show String.mk (subst_chars vals ("\x7b" ++ String.mk kd ++ "\x7d").data.length
      ("\x7b" ++ String.mk kd ++ "\x7d").data) = ""
    rw [hdata, List.length_cons, subst_chars_token vals _ kd hk, hnone]
    rfl

/-- C8 witness: a template referencing a value that is absent substitutes to
the empty string. -/
theorem substitute_placeholders_spec_witness :
    substitute_placeholders [] "\x7bdue_date\x7d" = "" :=
  substitute_placeholders_spec.2 [] "due_date" rfl (by decide)

/-- C9 counterexample: the create routes store the request's `status` field
verbatim, so a create request carrying status "sent" yields a quote that is
not "draft" at creation time. -/
theorem create_quote_status_not_always_draft :
    ¬ ((create_quote empty_db nondraft_request "q9" "QT-20250101-FFFFFFFF"
        "2025-01-01T00:00:00+00:00" "u1").1.status = "draft") := by
  decide

/-- C9 (amended): a created quote or invoice has exactly the status supplied
in the create request, and that request field defaults to "draft" when
omitted. -/
theorem create_status_passthrough (db : Db) (qd : QuoteCreate) (ind : InvoiceCreate)
    (id1 num1 ts1 uid1 : String) :
    (create_quote db qd id1 num1 ts1 uid1).1.status = qd.status ∧
    (create_invoice db ind id1 num1 ts1 uid1).1.status = ind.status ∧
    ∀ (n e : String) (its : List LineItem),
      ({ client_name := n, client_email := e, items := its } : QuoteCreate).status = "draft" ∧
      ({ client_name := n, client_email := e, items := its } : InvoiceCreate).status =
        "draft" :=
  ⟨rfl, rfl, fun _ _ _ => ⟨rfl, rfl⟩⟩

/-- C10: quote-to-invoice conversion has no status guard: for any stored
quote, whatever its status, the conversion succeeds, the new invoice starts
as "draft" with the quote's items and totals copied verbatim, the quote is
marked "converted", and converting the same quote again succeeds and appends
a further invoice. -/
theorem convert_quote_unguarded (db : Db) (qid id1 num1 ts1 uid1 : String) (q : Quote)
    (hq : db.quotes.find? (fun x => x.id = qid) = some q) :
    ∃ inv : Invoice,
      (convert_quote_to_invoice db qid id1 num1 ts1 uid1).1 = .ok inv ∧
      inv.id = id1 ∧ inv.status = "draft" ∧ inv.items = q.items ∧
      inv.subtotal = q.subtotal ∧ inv.tax = q.tax ∧ inv.total = q.total ∧
      (convert_quote_to_invoice db qid id1 num1 ts1 uid1).2.invoices =
        db.invoices ++ [inv] ∧
      (convert_quote_to_invoice db qid id1 num1 ts1 uid1).2.quotes.find?
          (fun x => x.id = qid) = some { q with status := "converted" } ∧
      ∀ id2 num2 ts2 uid2 : String, ∃ inv2 : Invoice,
        (convert_quote_to_invoice (convert_quote_to_invoice db qid id1 num1 ts1 uid1).2
            qid id2 num2 ts2 uid2).1 = .ok inv2 ∧
        inv2.id = id2 ∧ inv2.status = "draft" ∧
        (convert_quote_to_invoice (convert_quote_to_invoice db qid id1 num1 ts1 uid1).2
            qid id2 num2 ts2 uid2).2.invoices = db.invoices ++ [inv] ++ [inv2] := by
  have hfind2 : (convert_quote_to_invoice db qid id1 num1 ts1 uid1).2.quotes.find?
      (fun x => x.id = qid) = some { q with status := "converted" } := by
    have h2 : (convert_quote_to_invoice db qid id1 num1 ts1 uid1).2.quotes =
        update_first (fun x => x.id = qid) (fun x => { x with status := "converted" })
          db.quotes := by
      simp [convert_quote_to_invoice, hq]
    rw [h2]
    exact find?_update_first (fun x => x.id = qid)
      (fun x => { x with status := "converted" }) (fun y => rfl) db.quotes q hq
  refine ⟨{ id := id1, invoice_number := num1, client_name := q.client_name,
            client_email := q.client_email, client_address := q.client_address,
            items := q.items, subtotal := q.subtotal, tax := q.tax, total := q.total,
            notes := q.notes, due_date := none, status := "draft", payment_link := none,
            created_at := ts1, created_by := uid1 },
    ?_, rfl, rfl, rfl, rfl, rfl, rfl, ?_, hfind2, ?_⟩
  · simp [convert_quote_to_invoice, hq]
  · simp [convert_quote_to_invoice, hq]
  · intro id2 num2 ts2 uid2
    have h3 : (convert_quote_to_invoice db qid id1 num1 ts1 uid1).2.invoices =
        db.invoices ++
          [{ id := id1, invoice_number := num1, client_name := q.client_name,
             client_email := q.client_email, client_address := q.client_address,
             items := q.items, subtotal := q.subtotal, tax := q.tax, total := q.total,
             notes := q.notes, due_date := none, status := "draft", payment_link := none,
             created_at := ts1, created_by := uid1 }] := by
      simp [convert_quote_to_invoice, hq]
    set db1 := (convert_quote_to_invoice db qid id1 num1 ts1 uid1).2 with hdb1
    refine ⟨{ id := id2, invoice_number := num2, client_name := q.client_name,
              client_email := q.client_email, client_address := q.client_address,
              items := q.items, subtotal := q.subtotal, tax := q.tax, total := q.total,
              notes := q.notes, due_date := none, status := "draft", payment_link := none,
              created_at := ts2, created_by := uid2 },
      ?_, rfl, rfl, ?_⟩
    · simp [convert_quote_to_invoice, hfind2]
    · simp [convert_quote_to_invoice, hfind2, h3]

/-- C10 witness: converting the already-"converted" quote still succeeds and
produces a fresh draft invoice. -/
theorem convert_quote_unguarded_witness :
    converted_quote.status = "converted" ∧
    ∃ inv : Invoice,
      (convert_quote_to_invoice sample_db_converted "q2" "i9" "INV-20250102-AB12CD34"
          "2025-01-02T00:00:00+00:00" "u1").1 = .ok inv ∧
      inv.status = "draft" :=
  ⟨by decide,
    (convert_quote_unguarded sample_db_converted "q2" "i9" "INV-20250102-AB12CD34"
        "2025-01-02T00:00:00+00:00" "u1" converted_quote (by decide)).elim
      (fun inv h => ⟨inv, h.1, h.2.2.1⟩)⟩

end KyberBusiness
